import Mathlib

/-!
Shallow embedding of the pulsar task-queue backend
(src/pulsar/apps/tasks/backend.py): integer status codes, dict-backed task
records, the queuing and locking protocol (queue_task, generate_task_ids,
PulsarTaskBackend.maybe_queue_task), the execution wrapper (_execute_task),
the poll and dispatch loop (may_pool_task), the periodic scheduler
(Schedule.is_due, tick) and the completion waiters (wait_for_task,
Task.done).  Timestamps and durations are rationals; Python values stored
in record fields are the Val type; Python exceptions are PyErr.
-/

namespace Pulsar

/-- Modelled from the spec: the integer status codes live in the states
module, which is not under src/.  The backend docstring lists the statuses
in the order PENDING, QUEUED, RETRY, STARTED, REVOKED, UNKNOWN, FAILURE,
SUCCESS, and the dispatch check in the source compares the persisted code
with the STARTED code, requiring codes that decrease along that order. -/
def PENDING : ℕ := 8

def QUEUED : ℕ := 7

def RETRY : ℕ := 6

def STARTED : ℕ := 5

def REVOKED : ℕ := 4

def UNKNOWN : ℕ := 3

def FAILURE : ℕ := 2

def SUCCESS : ℕ := 1

/-- Modelled from the spec: READY_STATES, the set of terminal statuses
REVOKED, FAILURE and SUCCESS. -/
def READY_STATES : List ℕ := [REVOKED, FAILURE, SUCCESS]

/-- Python values stored in task-record fields.  blob stands for the
uninterpreted pickled keyword-argument payload. -/
inductive Val where
  | pynone
  | int (n : ℕ)
  | rat (q : ℚ)
  | str (s : String)
  | blob (kw : List (String × String))
  deriving DecidableEq

/-- A task record, as the dict-backed odm.Model stores it: an association
list from field names to values. -/
abbrev TaskRecord := List (String × Val)

/-- Dictionary lookup used for record fields, lock tables and keyword
arguments. -/
def lookupKV {α : Type} (k : String) : List (String × α) → Option α
  | [] => none
  | p :: t => if p.1 = k then some p.2 else lookupKV k t

/-- Python truthiness of a record field value, as used by the if guards
on the expiry and lock_id fields in the source: None, zero, the empty
string and the empty dict are falsy. -/
def truthyVal : Option Val → Bool
  | some Val.pynone => false
  | some (Val.int n) => decide (n ≠ 0)
  | some (Val.rat q) => decide (q ≠ 0)
  | some (Val.str s) => decide (s ≠ "")
  | some (Val.blob kw) => decide (kw ≠ [])
  | none => false

/-- Python exceptions relevant to the embedding. -/
inductive PyErr where
  | nameError (n : String)
  | attributeError (n : String)
  | valueError
  deriving DecidableEq

/-- Task.info (backend.py lines 239 to 241).  Its body reads the name
task, which is neither a local name (the parameter is self) nor a
module-level name, so every call raises NameError and the method never
returns normally. -/
def Task.info (_r : TaskRecord) : Except PyErr String :=
  Except.error (PyErr.nameError "task")

/-- The exception escaping from a Task.info call, if any. -/
def infoErr (r : TaskRecord) : Option PyErr :=
  match Task.info r with
  | Except.error e => some e
  | Except.ok _ => none

/-- The record TaskBackend.queue_task builds (line 407): Task(id, lock_id,
name, time_queued, expiry, kwargs, status=QUEUED). -/
def queuedRecord (tid : String) (lockId : Option String) (jobName : String)
    (queued : ℚ) (expiry : Option ℚ) (kwargs : Val) : TaskRecord :=
  [("id", Val.str tid),
   ("lock_id", match lockId with | some s => Val.str s | none => Val.pynone),
   ("name", Val.str jobName),
   ("time_queued", Val.rat queued),
   ("expiry", match expiry with | some e => Val.rat e | none => Val.pynone),
   ("kwargs", kwargs),
   ("status", Val.int QUEUED)]

/-- hmset semantics of save_task: update the field if present, append it
otherwise. -/
def setKV (k : String) (v : Val) : TaskRecord → TaskRecord
  | [] => [(k, v)]
  | (a, w) :: t => if a = k then (k, v) :: t else (a, w) :: setKV k v t

/-- Apply one save_task call (a list of field and value pairs) to a
record. -/
def applyParams (r : TaskRecord) (ps : List (String × Val)) : TaskRecord :=
  ps.foldl (fun acc kv => setKV kv.1 kv.2 acc) r

/-- Apply a sequence of save_task calls to a record. -/
def applySaves (r : TaskRecord) (saves : List (List (String × Val))) : TaskRecord :=
  saves.foldl applyParams r

/-- The status code a record carries, read the way the dispatch check
reads it. -/
def statusCode (r : TaskRecord) : ℕ :=
  match lookupKV "status" r with
  | some (Val.int n) => n
  | _ => 0

/-- The expiry timestamp a record carries, for the comparison
time_ended greater than expiry. -/
def expiryVal (r : TaskRecord) : ℚ :=
  match lookupKV "expiry" r with
  | some (Val.rat q) => q
  | _ => 0

/-- Observable outcome of one _execute_task call: the save_task calls it
issued in order, the pubsub events it published, whether the id was
discarded from concurrent_tasks, whether the job body was invoked, and
the exception escaping the wrapper, if any. -/
structure ExecOutcome where
  saves : List (List (String × Val))
  events : List String
  discarded : Bool
  bodyInvoked : Bool
  uncaught : Option PyErr
  deriving DecidableEq

/-- TaskBackend._execute_task (lines 640 to 685).  jobFound is the result
of the registry lookup; t1 is the time.time() value read at entry (used
for the expiry check and the STARTED timestamp), t2 the one read for the
final save; body is the outcome of invoking the job callable.  Branches:
registry miss raises RuntimeError into the except-Exception handler,
whose message formatting calls Task.info and so escapes with NameError;
a persisted status at or below STARTED abandons the task (discard, no
save); a truthy expiry already passed raises TaskTimeout, caught and
persisted as REVOKED with result None; a normal return is persisted as
SUCCESS; a job-body exception enters the except-Exception handler, which
calls Task.info while building the log message and therefore escapes
with NameError before the FAILURE save, the discard and the task_done
publish. -/
def execute_task (jobFound : Bool) (r : TaskRecord) (t1 t2 : ℚ)
    (workerAid : String) (body : Except PyErr Val) : ExecOutcome :=
  if jobFound then
    if STARTED < statusCode r then
      if truthyVal (lookupKV "expiry" r) = true ∧ expiryVal r < t1 then
        { saves := [[("time_ended", Val.rat t2), ("status", Val.int REVOKED),
                     ("result", Val.pynone)]],
          events := ["task_done"], discarded := true, bodyInvoked := false,
          uncaught := none }
      else
        match body with
        | Except.ok v =>
          { saves := [[("status", Val.int STARTED), ("time_started", Val.rat t1),
                       ("worker", Val.str workerAid)],
                      [("time_ended", Val.rat t2), ("status", Val.int SUCCESS),
                       ("result", v)]],
            events := ["task_started", "task_done"], discarded := true,
            bodyInvoked := true, uncaught := none }
        | Except.error _ =>
          { saves := [[("status", Val.int STARTED), ("time_started", Val.rat t1),
                       ("worker", Val.str workerAid)]],
            events := ["task_started"], discarded := false, bodyInvoked := true,
            uncaught := infoErr r }
    else
      { saves := [], events := [], discarded := true, bodyInvoked := false,
        uncaught := none }
  else
    { saves := [], events := [], discarded := false, bodyInvoked := false,
      uncaught := infoErr r }

/-- The status field of one save_task call, if it sets one. -/
def statusOfSave (ps : List (String × Val)) : Option ℕ :=
  match lookupKV "status" ps with
  | some (Val.int n) => some n
  | _ => none

/-- The sequence of status values persisted for one task by queue_task
followed by _execute_task: queue_task persists the record with status
QUEUED, then _execute_task issues its save_task calls. -/
def persistedStatuses (jobFound : Bool) (tid jobName : String)
    (lockId : Option String) (queued : ℚ) (expiry : Option ℚ) (kwargs : Val)
    (t1 t2 : ℚ) (aid : String) (body : Except PyErr Val) : List ℕ :=
  QUEUED ::
    (execute_task jobFound (queuedRecord tid lockId jobName queued expiry kwargs)
      t1 t2 aid body).saves.filterMap statusOfSave

/-- Task.done (lines 232 to 237): reads the field named state and tests
membership in READY_STATES.  The records persisted by the backend carry
the field status, never state. -/
def Task.done (r : TaskRecord) : Bool :=
  match lookupKV "state" r with
  | some (Val.int n) => decide (n ∈ READY_STATES)
  | _ => false

/-- Which branch wait_for_task takes once it has fetched the task
(lines 433 to 447). -/
inductive WaitAction where
  | resolveNow
  | registerCallback
  | noTask
  deriving DecidableEq

/-- The branch decision of wait_for_task: an existing task resolves
immediately only when Task.done holds, otherwise a callback handle is
created (or reused) and the caller suspends on it. -/
def wait_for_task (r : Option TaskRecord) : WaitAction :=
  match r with
  | none => WaitAction.noTask
  | some t => if Task.done t then WaitAction.resolveNow else WaitAction.registerCallback

/-- timedelta_seconds (lines 147 to 148): total seconds of a duration,
clamped below at zero. -/
def timedelta_seconds (d : ℚ) : ℚ := max d 0

/-- Schedule.is_due (lines 728 to 740). -/
def is_due (run_every last_run_at now : ℚ) : Bool × ℚ :=
  let rem := timedelta_seconds (last_run_at + run_every - now)
  if rem = 0 then (true, timedelta_seconds run_every) else (false, rem)

/-- The due check as the spec words it, for comparison with is_due:
remaining is run_every minus (now minus last_run_at), clamped to a
minimum of zero; due now with the run_every hint when remaining is zero,
otherwise not due with the remaining hint. -/
def is_due_spec (run_every last_run_at now : ℚ) : Bool × ℚ :=
  let remaining := max (run_every - (now - last_run_at)) 0
  if remaining = 0 then (true, run_every) else (false, remaining)

/-- In-process poll-loop state: the concurrent task-id set (a list with
set-like insertion) and the lifetime processed counter. -/
structure PollState where
  concurrent : List String
  processed : ℕ
  deriving DecidableEq

/-- Environment of one may_pool_task iteration: worker.is_running(),
whether worker.thread_pool exists, and the id the long-poll pop returned,
if any. -/
structure PollEnv where
  running : Bool
  hasPool : Bool
  popped : Option String
  deriving DecidableEq

/-- Observable outcome of one may_pool_task iteration: the new state,
whether the store was polled, the id handed to the thread pool if any,
whether worker.stop() was signalled, and the call_later delay, none when
the loop did not reschedule itself. -/
structure PollResult where
  state : PollState
  polled : Bool
  dispatched : Option String
  stopped : Bool
  reschedule : Option ℚ
  deriving DecidableEq

/-- set.add on the concurrent-task list. -/
def sinsert (t : String) (l : List String) : List String :=
  if t ∈ l then l else t :: l

/-- TaskBackend.may_pool_task (lines 611 to 638).  If the worker is
running: a missing thread pool only logs (next_time stays 0); below the
backlog, a configured and reached max_tasks with an empty concurrent set
stops the worker and returns without rescheduling, a reached max_tasks
with a nonempty set reschedules at 0 without polling, otherwise the queue
is long-polled and a popped id is added and dispatched; at or above the
backlog next_time is 1 and the store is not polled.  All paths except the
stop reschedule via call_later(next_time). -/
def may_pool_task (backlog max_tasks : ℕ) (s : PollState) (env : PollEnv) :
    PollResult :=
  if env.running = true then
    if env.hasPool = false then
      { state := s, polled := false, dispatched := none, stopped := false,
        reschedule := some 0 }
    else if s.concurrent.length < backlog then
      if max_tasks ≠ 0 ∧ max_tasks ≤ s.processed then
        if s.concurrent.length = 0 then
          { state := s, polled := false, dispatched := none, stopped := true,
            reschedule := none }
        else
          { state := s, polled := false, dispatched := none, stopped := false,
            reschedule := some 0 }
      else
        match env.popped with
        | some tid =>
          { state := { concurrent := sinsert tid s.concurrent,
                       processed := s.processed + 1 },
            polled := true, dispatched := some tid, stopped := false,
            reschedule := some 0 }
        | none =>
          { state := s, polled := true, dispatched := none, stopped := false,
            reschedule := some 0 }
    else
      { state := s, polled := false, dispatched := none, stopped := false,
        reschedule := some 1 }
  else
    { state := s, polled := false, dispatched := none, stopped := false,
      reschedule := some 0 }

/-- One event touching the in-process concurrent set: a may_pool_task
iteration, or a task finishing on the thread pool, which discards its id
(line 683). -/
inductive PollStep where
  | poll (env : PollEnv)
  | finish (tid : String)
  deriving DecidableEq

/-- Run a sequence of poll-loop and task-finish events over the in-process
state. -/
def runTrace (backlog max_tasks : ℕ) : List PollStep → PollState → PollState
  | [], s => s
  | PollStep.poll env :: rest, s =>
    runTrace backlog max_tasks rest (may_pool_task backlog max_tasks s env).state
  | PollStep.finish tid :: rest, s =>
    runTrace backlog max_tasks rest
      { concurrent := s.concurrent.erase tid, processed := s.processed }

/-- The state a freshly started worker begins with: empty concurrent set,
zero processed. -/
def initPollState : PollState := { concurrent := [], processed := 0 }

/-- The ids dispatched by successive poll-loop iterations: each iteration
consumes one environment, and the loop continues only while the previous
iteration rescheduled itself. -/
def loopRun (backlog max_tasks : ℕ) : PollState → List PollEnv → List String
  | _, [] => []
  | s, env :: rest =>
    (may_pool_task backlog max_tasks s env).dispatched.toList ++
      (if (may_pool_task backlog max_tasks s env).reschedule.isSome then
        loopRun backlog max_tasks (may_pool_task backlog max_tasks s env).state rest
      else [])

deriving instance DecidableEq for Except

/-- One scheduler entry as tick sees it: its name and the outcome of its
entry.is_due(now) call, which may raise. -/
structure TickEntry where
  name : String
  due : Except PyErr (Bool × ℚ)
  deriving DecidableEq

/-- Observable outcome of the entry loop of tick: the entries whose
is_due was evaluated, the entries enqueued, the collected next-due
estimates, and whether the except-Exception handler around the loop
caught an error. -/
structure TickOutcome where
  evaluated : List String
  fired : List String
  remaining : List ℚ
  caught : Bool
  deriving DecidableEq

/-- The for loop of TaskBackend.tick (lines 547 to 555).  The try and
except wrap the WHOLE loop, so the first entry whose is_due or whose
run_job call raises ends the iteration: the error is caught and logged
once and the remaining entries are not evaluated.  run_job is passed as a
parameter: the source calls self.run_job, an attribute the class does not
define, so on the unmodified class a due entry raises AttributeError. -/
def tickLoop (runJob : String → Except PyErr Unit) : List TickEntry → TickOutcome
  | [] => { evaluated := [], fired := [], remaining := [], caught := false }
  | e :: rest =>
    match e.due with
    | Except.error _ =>
      { evaluated := [e.name], fired := [], remaining := [], caught := true }
    | Except.ok (d, ntr) =>
      if d = true then
        match runJob e.name with
        | Except.error _ =>
          { evaluated := [e.name], fired := [], remaining := [], caught := true }
        | Except.ok _ =>
          { evaluated := e.name :: (tickLoop runJob rest).evaluated,
            fired := e.name :: (tickLoop runJob rest).fired,
            remaining := if ntr ≠ 0 then ntr :: (tickLoop runJob rest).remaining
              else (tickLoop runJob rest).remaining,
            caught := (tickLoop runJob rest).caught }
      else
        { evaluated := e.name :: (tickLoop runJob rest).evaluated,
          fired := (tickLoop runJob rest).fired,
          remaining := if ntr ≠ 0 then ntr :: (tickLoop runJob rest).remaining
            else (tickLoop runJob rest).remaining,
          caught := (tickLoop runJob rest).caught }

/-- TaskBackend.tick (lines 536 to 558): a no-op unless schedule_periodic
is set, otherwise the entry loop runs. -/
def tick (runJob : String → Except PyErr Unit) (schedule_periodic : Bool)
    (entries : List TickEntry) : Option TickOutcome :=
  if schedule_periodic = true then some (tickLoop runJob entries) else none

/-- An entry that evaluates without raising: is_due returns, and if due
the enqueue succeeds as well. -/
def entryOk (runJob : String → Except PyErr Unit) (e : TickEntry) : Prop :=
  ∃ d ntr, e.due = Except.ok (d, ntr) ∧
    (d = true → ∃ u, runJob e.name = Except.ok u)

/-- can_overlap on a job: a plain boolean, or a predicate invoked with the
keyword arguments (lines 522 to 524). -/
inductive Overlap where
  | flag (b : Bool)
  | pred (f : List (String × String) → Bool)

/-- Resolve can_overlap: call it when callable, then use its truth
value. -/
def resolveOverlap (o : Overlap) (kwargs : List (String × String)) : Bool :=
  match o with
  | Overlap.flag b => b
  | Overlap.pred f => f kwargs

/-- join with a separator, as str.join does. -/
def joinSep (sep : String) : List String → String
  | [] => ""
  | [x] => x
  | x :: xs => x ++ sep ++ joinSep sep xs

/-- sorted(kwargs): the keyword-argument keys in sorted order.  Python
compares strings lexicographically by code point, modelled here as the
lexicographic order on the character data. -/
def sortedKeys (kwargs : List (String × String)) : List String :=
  List.insertionSort (fun a b => a.data ≤ b.data) (kwargs.map Prod.fst)

instance strDataLeTotal : IsTotal String (fun a b => a.data ≤ b.data) :=
  ⟨fun a b => le_total a.data b.data⟩

instance strDataLeTrans : IsTrans String (fun a b => a.data ≤ b.data) :=
  ⟨fun _ _ _ => le_trans⟩

instance strDataLeAntisymm : IsAntisymm String (fun a b => a.data ≤ b.data) :=
  ⟨fun a b h1 h2 => by
    cases a
    cases b
    exact congrArg String.mk (le_antisymm h1 h2)⟩

/-- The string hashed into the lock id (lines 529 to 533): the backend
name followed, when kwargs is nonempty, by the key=value pairs joined
with a comma and a space, keys in sorted order.  The SHA-1 hex digest
applied to it in the source is passed abstractly as H below. -/
def lockName (backendName : String) (kwargs : List (String × String)) : String :=
  if kwargs = [] then backendName
  else
    backendName ++ " " ++
      joinSep ", "
        ((sortedKeys kwargs).map (fun k => k ++ "=" ++ ((lookupKV k kwargs).getD "")))

/-- TaskBackend.generate_task_ids (lines 509 to 534): a fresh unique id
tid, and no lock id when can_overlap resolves truthy, otherwise the
digest H of the lock-name string. -/
def generate_task_ids (H : String → String) (backendName : String) (o : Overlap)
    (kwargs : List (String × String)) (tid : String) : String × Option String :=
  if resolveOverlap o kwargs = true then (tid, none)
  else (tid, some (H (lockName backendName kwargs)))

/-- The store state the pulsar backend mutates: the locks hash, the task
hashes and the inqueue list. -/
structure Store where
  locks : List (String × String)
  tasks : List (String × TaskRecord)
  inqueue : List String
  deriving DecidableEq

/-- hsetnx: set the field only when absent; true when newly set. -/
def hsetnx (locks : List (String × String)) (field value : String) :
    Bool × List (String × String) :=
  match lookupKV field locks with
  | some _ => (false, locks)
  | none => (true, locks ++ [(field, value)])

/-- The id field of a record. -/
def taskIdOf (r : TaskRecord) : String :=
  match lookupKV "id" r with
  | some (Val.str s) => s
  | _ => ""

/-- The pipeline of maybe_queue_task when the task is free to queue: hmset
the task hash and lpush the id. -/
def pushTask (st : Store) (locks : List (String × String)) (r : TaskRecord) :
    Store :=
  { locks := locks,
    tasks := st.tasks ++ [(taskIdOf r, r)],
    inqueue := taskIdOf r :: st.inqueue }

/-- PulsarTaskBackend.maybe_queue_task (lines 833 to 847): with a truthy
lock_id, hsetnx into the locks hash decides; when free the task is
inserted and its id pushed, otherwise nothing is queued. -/
def maybe_queue_task (st : Store) (r : TaskRecord) : Option TaskRecord × Store :=
  match lookupKV "lock_id" r with
  | some (Val.str s) =>
    if s = "" then (some r, pushTask st st.locks r)
    else
      match hsetnx st.locks s (taskIdOf r) with
      | (true, locks2) => (some r, pushTask st locks2 r)
      | (false, locks2) => (none, { st with locks := locks2 })
  | _ => (some r, pushTask st st.locks r)

/-- The expiry queue_task computes (lines 400 to 404): queued time plus
the explicit expiry when given, else queued time plus a truthy job
timeout, else none. -/
def computeExpiry (queued : ℚ) (explicitExpiry jobTimeout : Option ℚ) :
    Option ℚ :=
  match explicitExpiry with
  | some e => some (queued + e)
  | none =>
    match jobTimeout with
    | some d => if d = 0 then none else some (queued + d)
    | none => none

/-- TaskBackend.queue_task (lines 380 to 421) composed with
PulsarTaskBackend.maybe_queue_task, for a registered job: generate the
ids, compute the expiry, build the QUEUED record and attempt the
conditional insert. -/
def queue_task (H : String → String) (backendName : String) (o : Overlap)
    (jobTimeout : Option ℚ) (jobName : String) (kwargs : List (String × String))
    (tid : String) (queued : ℚ) (explicitExpiry : Option ℚ) (st : Store) :
    Option TaskRecord × Store :=
  maybe_queue_task st
    (queuedRecord tid (generate_task_ids H backendName o kwargs tid).2 jobName
      queued (computeExpiry queued explicitExpiry jobTimeout) (Val.blob kwargs))

/-- Python `poll_timeout or 0`: None and zero become 0, any other value
passes through. -/
def pyOrZero : Option ℚ → ℚ
  | none => 0
  | some v => if v = 0 then 0 else v

/-- The poll_timeout assignment in TaskBackend.__init__ (line 320):
max(poll_timeout or 0, 2).  The attribute has no other write site in the
source. -/
def init_poll_timeout (poll_timeout : Option ℚ) : ℚ :=
  max (pyOrZero poll_timeout) 2

theorem statusCode_queued (tid jobName : String) (lockId : Option String)
    (queued : ℚ) (expiry : Option ℚ) (kwargs : Val) :
    statusCode (queuedRecord tid lockId jobName queued expiry kwargs) = QUEUED := rfl

/-- C7: Schedule.is_due computes remaining as run_every minus
(now minus last_run_at) clamped below at zero, returns the pair of true
and run_every in seconds when remaining is zero and the pair of false
and remaining otherwise; in particular with run_every 60 and
last_run_at T, is_due at T plus 61 is (true, 60) and is_due at T plus 30
is (false, 30). -/
theorem c7_schedule_is_due (run_every last_run_at now T : ℚ)
    (h : 0 ≤ run_every) :
    is_due run_every last_run_at now = is_due_spec run_every last_run_at now ∧
    is_due 60 T (T + 61) = (true, 60) ∧
    is_due 60 T (T + 30) = (false, 30) := by
  refine ⟨?_, ?_, ?_⟩
  · simp only [is_due, is_due_spec, timedelta_seconds]
    rw [show last_run_at + run_every - now = run_every - (now - last_run_at) by
      ring, max_eq_left h]
  · have h1 : T + 60 - (T + 61) = (-1 : ℚ) := by ring
    simp only [is_due, timedelta_seconds, h1]
    rw [max_eq_right (by norm_num : (-1 : ℚ) ≤ 0),
      max_eq_left (by norm_num : (0 : ℚ) ≤ 60)]
    simp
  · have h1 : T + 60 - (T + 30) = (30 : ℚ) := by ring
    simp only [is_due, timedelta_seconds, h1]
    rw [max_eq_left (by norm_num : (0 : ℚ) ≤ 30)]
    norm_num

theorem c7_schedule_is_due_witness :
    is_due 60 0 0 = is_due_spec 60 0 0 ∧
    is_due 60 5 (5 + 61) = (true, 60) ∧
    is_due 60 5 (5 + 30) = (false, 30) :=
  c7_schedule_is_due 60 0 0 5 (by norm_num)

/-- C10: the constructor sets poll_timeout to max(poll_timeout or 0, 2):
the value is always at least 2, a supplied value below 2 (including None,
zero and negatives) is silently raised to 2, and a supplied value of at
least 2 is kept. -/
theorem c10_poll_timeout_floor (p : Option ℚ) (v : ℚ) :
    2 ≤ init_poll_timeout p ∧
    (v < 2 → init_poll_timeout (some v) = 2) ∧
    (2 ≤ v → init_poll_timeout (some v) = v) ∧
    init_poll_timeout none = 2 := by
  refine ⟨le_max_right _ _, ?_, ?_, ?_⟩
  · intro hv
    simp only [init_poll_timeout, pyOrZero]
    by_cases h0 : v = 0
    · rw [if_pos h0]
      exact max_eq_right (by norm_num)
    · rw [if_neg h0]
      exact max_eq_right (le_of_lt hv)
  · intro hv
    have h0 : v ≠ 0 := by
      intro h
      rw [h] at hv
      norm_num at hv
    simp only [init_poll_timeout, pyOrZero, if_neg h0]
    exact max_eq_left hv
  · simp only [init_poll_timeout, pyOrZero]
    exact max_eq_right (by norm_num)

theorem c10_poll_timeout_floor_witness :
    2 ≤ init_poll_timeout (some 1) ∧ init_poll_timeout (some 1) = 2 :=
  ⟨(c10_poll_timeout_floor (some 1) 1).1,
   (c10_poll_timeout_floor (some 1) 1).2.1 (by norm_num)⟩

/-- C4: evaluating _execute_task on a registered job whose body raises:
the except-Exception handler formats its log message with Task.info,
which reads the undefined name task, so NameError escapes the wrapper;
only STARTED was persisted, the task is never persisted as FAILURE, no
task_done event is published and the id is not discarded from the
concurrency set. -/
theorem c4_failure_path_crash :
    (execute_task true (queuedRecord "t1" none "addition" 0 none Val.pynone)
        1 2 "w1" (Except.error PyErr.valueError)).uncaught =
      some (PyErr.nameError "task") ∧
    ((execute_task true (queuedRecord "t1" none "addition" 0 none Val.pynone)
        1 2 "w1" (Except.error PyErr.valueError)).saves.filterMap
      statusOfSave) = [STARTED] ∧
    (execute_task true (queuedRecord "t1" none "addition" 0 none Val.pynone)
        1 2 "w1" (Except.error PyErr.valueError)).discarded = false ∧
    "task_done" ∉ (execute_task true
        (queuedRecord "t1" none "addition" 0 none Val.pynone)
        1 2 "w1" (Except.error PyErr.valueError)).events := by
  decide

/-- C5 counterexample: a dispatched task whose expiry field is set to 0,
which is earlier than the dispatch time 1, is NOT revoked: the guard
tests the truthiness of the expiry value, a zero expiry is falsy, so the
job body runs and the task is persisted as STARTED then SUCCESS. -/
theorem c5_zero_expiry_counterexample :
    lookupKV "expiry" (queuedRecord "t1" none "j" 0 (some 0) Val.pynone) =
      some (Val.rat 0) ∧
    ((0 : ℚ) < 1) ∧
    (execute_task true (queuedRecord "t1" none "j" 0 (some 0) Val.pynone)
        1 2 "w1" (Except.ok Val.pynone)).bodyInvoked = true ∧
    ((execute_task true (queuedRecord "t1" none "j" 0 (some 0) Val.pynone)
        1 2 "w1" (Except.ok Val.pynone)).saves.filterMap statusOfSave) =
      [STARTED, SUCCESS] := by
  decide

/-- C5 as amended: for every dispatched task whose expiry field is set to
a nonzero timestamp earlier than the dispatch time, _execute_task issues
exactly one save, persisting terminal status REVOKED with result None,
publishes only the task done event, discards the id and never invokes
the job body. -/
theorem c5_expiry_revoked (tid jobName aid : String) (lockId : Option String)
    (queued t1 t2 : ℚ) (e : ℚ) (kwargs : Val) (body : Except PyErr Val)
    (he : e ≠ 0) (hlt : e < t1) :
    (execute_task true (queuedRecord tid lockId jobName queued (some e) kwargs)
        t1 t2 aid body).saves =
      [[("time_ended", Val.rat t2), ("status", Val.int REVOKED),
        ("result", Val.pynone)]] ∧
    (execute_task true (queuedRecord tid lockId jobName queued (some e) kwargs)
        t1 t2 aid body).bodyInvoked = false ∧
    (execute_task true (queuedRecord tid lockId jobName queued (some e) kwargs)
        t1 t2 aid body).events = ["task_done"] ∧
    (execute_task true (queuedRecord tid lockId jobName queued (some e) kwargs)
        t1 t2 aid body).discarded = true := by
  have h1 : STARTED < statusCode (queuedRecord tid lockId jobName queued
      (some e) kwargs) := by
    rw [statusCode_queued]
    norm_num [STARTED, QUEUED]
  have h2 : truthyVal (lookupKV "expiry"
      (queuedRecord tid lockId jobName queued (some e) kwargs)) = true := by
    show decide (e ≠ 0) = true
    simpa using he
  have h3 : expiryVal (queuedRecord tid lockId jobName queued (some e) kwargs)
      = e := rfl
  refine ⟨?_, ?_, ?_, ?_⟩ <;> simp [execute_task, h1, h2, h3, hlt]

theorem c5_expiry_revoked_witness :
    (execute_task true (queuedRecord "t1" none "j" 0 (some 1) Val.pynone)
        2 3 "w1" (Except.ok Val.pynone)).saves =
      [[("time_ended", Val.rat 3), ("status", Val.int REVOKED),
        ("result", Val.pynone)]] ∧
    (execute_task true (queuedRecord "t1" none "j" 0 (some 1) Val.pynone)
        2 3 "w1" (Except.ok Val.pynone)).bodyInvoked = false ∧
    (execute_task true (queuedRecord "t1" none "j" 0 (some 1) Val.pynone)
        2 3 "w1" (Except.ok Val.pynone)).events = ["task_done"] ∧
    (execute_task true (queuedRecord "t1" none "j" 0 (some 1) Val.pynone)
        2 3 "w1" (Except.ok Val.pynone)).discarded = true :=
  c5_expiry_revoked "t1" "j" "w1" none 0 2 3 1 Val.pynone (Except.ok Val.pynone)
    (by norm_num) (by norm_num)

/-- C8: a record queued and then executed to completion carries status
SUCCESS, a ready state; yet Task.done reads the field named state, which
no persisted record carries, so done is false and wait_for_task takes
the register-a-callback branch and suspends instead of resolving
immediately with the final record. -/
theorem c8_wait_done_state_bug :
    lookupKV "status"
        (applySaves (queuedRecord "t1" none "j" 0 none Val.pynone)
          (execute_task true (queuedRecord "t1" none "j" 0 none Val.pynone)
            1 2 "w1" (Except.ok Val.pynone)).saves) = some (Val.int SUCCESS) ∧
    lookupKV "state"
        (applySaves (queuedRecord "t1" none "j" 0 none Val.pynone)
          (execute_task true (queuedRecord "t1" none "j" 0 none Val.pynone)
            1 2 "w1" (Except.ok Val.pynone)).saves) = none ∧
    Task.done
        (applySaves (queuedRecord "t1" none "j" 0 none Val.pynone)
          (execute_task true (queuedRecord "t1" none "j" 0 none Val.pynone)
            1 2 "w1" (Except.ok Val.pynone)).saves) = false ∧
    wait_for_task
        (some (applySaves (queuedRecord "t1" none "j" 0 none Val.pynone)
          (execute_task true (queuedRecord "t1" none "j" 0 none Val.pynone)
            1 2 "w1" (Except.ok Val.pynone)).saves)) =
      WaitAction.registerCallback := by
  decide

/-- C6 counterexample: a tick over two entries where is_due of the first
entry raises: the error is caught (tick returns normally with the
caught flag set), but the second entry is never evaluated in that tick,
so an error in one entry DOES prevent the remaining entries from being
evaluated. -/
theorem c6_tick_abort_counterexample :
    tick (fun _ => Except.ok ()) true
        [{ name := "e1", due := Except.error PyErr.valueError },
         { name := "e2", due := Except.ok (false, 10) }] =
      some { evaluated := ["e1"], fired := [], remaining := [],
             caught := true } ∧
    "e2" ∉ (tickLoop (fun _ => Except.ok ())
        [{ name := "e1", due := Except.error PyErr.valueError },
         { name := "e2", due := Except.ok (false, 10) }]).evaluated := by
  decide

theorem statusOfSave_started (t1 : ℚ) (aid : String) :
    statusOfSave [("status", Val.int STARTED), ("time_started", Val.rat t1),
      ("worker", Val.str aid)] = some STARTED := rfl

theorem statusOfSave_final (t2 : ℚ) (stc : ℕ) (res : Val) :
    statusOfSave [("time_ended", Val.rat t2), ("status", Val.int stc),
      ("result", res)] = some stc := rfl

/-- C3: for every task, the sequence of status values persisted by
queue_task followed by _execute_task is a subsequence of QUEUED, STARTED
and then exactly one terminal status among SUCCESS, FAILURE and REVOKED,
so it never moves backward. -/
theorem c3_status_monotonic (jobFound : Bool) (tid jobName aid : String)
    (lockId : Option String) (queued t1 t2 : ℚ) (expiry : Option ℚ)
    (kwargs : Val) (body : Except PyErr Val) :
    ∃ t, t ∈ [SUCCESS, FAILURE, REVOKED] ∧
      (persistedStatuses jobFound tid jobName lockId queued expiry kwargs
        t1 t2 aid body).Sublist [QUEUED, STARTED, t] := by
  cases jobFound with
  | false =>
    refine ⟨SUCCESS, by decide, ?_⟩
    have hseq : persistedStatuses false tid jobName lockId queued expiry
        kwargs t1 t2 aid body = [QUEUED] := rfl
    rw [hseq]
    decide
  | true =>
    have h1 : STARTED < statusCode (queuedRecord tid lockId jobName queued
        expiry kwargs) := by
      rw [statusCode_queued]
      norm_num [STARTED, QUEUED]
    by_cases hc : truthyVal (lookupKV "expiry"
          (queuedRecord tid lockId jobName queued expiry kwargs)) = true ∧
        expiryVal (queuedRecord tid lockId jobName queued expiry kwargs) < t1
    · refine ⟨REVOKED, by decide, ?_⟩
      have hseq : persistedStatuses true tid jobName lockId queued expiry
          kwargs t1 t2 aid body = [QUEUED, REVOKED] := by
        simp [persistedStatuses, execute_task, h1, hc, statusOfSave_final]
      rw [hseq]
      decide
    · cases body with
      | ok v =>
        refine ⟨SUCCESS, by decide, ?_⟩
        have hseq : persistedStatuses true tid jobName lockId queued expiry
            kwargs t1 t2 aid (Except.ok v) = [QUEUED, STARTED, SUCCESS] := by
          simp [persistedStatuses, execute_task, h1, hc, statusOfSave_started,
            statusOfSave_final]
        rw [hseq]
      | error er =>
        refine ⟨FAILURE, by decide, ?_⟩
        have hseq : persistedStatuses true tid jobName lockId queued expiry
            kwargs t1 t2 aid (Except.error er) = [QUEUED, STARTED] := by
          simp [persistedStatuses, execute_task, h1, hc, statusOfSave_started]
        rw [hseq]
        decide

theorem sinsert_length_le_succ (t : String) (l : List String) :
    (sinsert t l).length ≤ l.length + 1 := by
  unfold sinsert
  split_ifs <;> simp

theorem may_pool_card (b m : ℕ) (s : PollState) (env : PollEnv)
    (h : s.concurrent.length ≤ b) :
    (may_pool_task b m s env).state.concurrent.length ≤ b := by
  rcases env with ⟨er, ep, epop⟩
  cases er <;> cases ep <;> cases epop <;>
      simp only [may_pool_task] <;> split_ifs <;>
      first
        | exact h
        | exact le_trans (sinsert_length_le_succ _ _) (by omega)

theorem runTrace_card (b m : ℕ) : ∀ (steps : List PollStep) (s : PollState),
    s.concurrent.length ≤ b → (runTrace b m steps s).concurrent.length ≤ b := by
  intro steps
  induction steps with
  | nil => intro s h; exact h
  | cons st rest ih =>
    intro s h
    cases st with
    | poll env => exact ih _ (may_pool_card b m s env h)
    | finish tid =>
      refine ih _ (le_trans ?_ h)
      exact List.Sublist.length_le (List.erase_sublist tid s.concurrent)

/-- C1: each may_pool_task iteration adds at most one id to the
concurrent set and only when its size is strictly below the backlog;
when the set has reached the backlog (worker running, pool present) the
iteration reschedules after a backoff of 1 without polling the store and
leaves the state unchanged; and along any trace of iterations and task
completions from the initial state the set never exceeds the backlog. -/
theorem c1_backlog_ceiling (backlog max_tasks : ℕ) (s : PollState)
    (env : PollEnv) (steps : List PollStep) :
    ((may_pool_task backlog max_tasks s env).state.concurrent = s.concurrent ∨
      ∃ t, s.concurrent.length < backlog ∧
        (may_pool_task backlog max_tasks s env).state.concurrent =
          sinsert t s.concurrent) ∧
    (backlog ≤ s.concurrent.length → env.running = true → env.hasPool = true →
      (may_pool_task backlog max_tasks s env).reschedule = some 1 ∧
      (may_pool_task backlog max_tasks s env).polled = false ∧
      (may_pool_task backlog max_tasks s env).state = s) ∧
    (runTrace backlog max_tasks steps initPollState).concurrent.length ≤
      backlog := by
  refine ⟨?_, ?_, ?_⟩
  · rcases env with ⟨er, ep, epop⟩
    cases er <;> cases ep <;> cases epop <;>
        simp only [may_pool_task] <;> split_ifs <;>
        first
          | exact Or.inl rfl
          | exact Or.inr ⟨_, by assumption, rfl⟩
  · intro hfull hr hp
    have hnl : ¬ s.concurrent.length < backlog := by omega
    simp [may_pool_task, hr, hp, hnl]
  · exact runTrace_card backlog max_tasks steps initPollState
      (by simp [initPollState])

theorem c1_backlog_ceiling_witness :
    (may_pool_task 2 0 { concurrent := ["a", "b"], processed := 5 }
        { running := true, hasPool := true, popped := some "c" }).reschedule =
      some 1 ∧
    (may_pool_task 2 0 { concurrent := ["a", "b"], processed := 5 }
        { running := true, hasPool := true, popped := some "c" }).polled =
      false := by
  have h := (c1_backlog_ceiling 2 0 { concurrent := ["a", "b"], processed := 5 }
      { running := true, hasPool := true, popped := some "c" } []).2.1
    (by decide) rfl rfl
  exact ⟨h.1, h.2.1⟩

theorem backlog_zero_processed (m : ℕ) : ∀ (steps : List PollStep)
    (s : PollState), (runTrace 0 m steps s).processed = s.processed := by
  intro steps
  induction steps with
  | nil => intro s; rfl
  | cons st rest ih =>
    intro s
    cases st with
    | poll env =>
      rcases env with ⟨er, ep, epop⟩
      cases er <;> cases ep <;> cases epop <;>
          simp only [runTrace, may_pool_task] <;> split_ifs <;>
          first
            | exact ih _
            | (exfalso; omega)
    | finish tid => exact ih _

/-- C9: in any trace from the initial state, at a poll-loop iteration
(worker running, pool present) reached with a nonzero max_tasks, a
processed count at or past max_tasks and an empty concurrent set, the
iteration signals the worker to stop, does not reschedule itself, and no
task is dispatched by that iteration or any later one.  (A reachable
state with nonzero processed forces a positive backlog, so the backlog
gate is passed.) -/
theorem c9_max_tasks_stop (backlog max_tasks : ℕ) (steps : List PollStep)
    (env : PollEnv) (envs : List PollEnv)
    (hmax : max_tasks ≠ 0) (hrun : env.running = true)
    (hpool : env.hasPool = true)
    (hproc : max_tasks ≤
      (runTrace backlog max_tasks steps initPollState).processed)
    (hempty : (runTrace backlog max_tasks steps initPollState).concurrent = []) :
    (may_pool_task backlog max_tasks
      (runTrace backlog max_tasks steps initPollState) env).stopped = true ∧
    (may_pool_task backlog max_tasks
      (runTrace backlog max_tasks steps initPollState) env).reschedule = none ∧
    loopRun backlog max_tasks (runTrace backlog max_tasks steps initPollState)
      (env :: envs) = [] := by
  set s := runTrace backlog max_tasks steps initPollState with hs
  have hb : 0 < backlog := by
    rcases Nat.eq_zero_or_pos backlog with h0 | h
    · subst h0
      have h2 : s.processed = 0 := by
        rw [hs]
        simpa [initPollState] using backlog_zero_processed max_tasks steps
          initPollState
      omega
    · exact h
  have hlen : s.concurrent.length = 0 := by simp [hempty]
  have hkey : may_pool_task backlog max_tasks s env =
      { state := s, polled := false, dispatched := none, stopped := true,
        reschedule := none } := by
    simp [may_pool_task, hrun, hpool, hlen, hb, hmax, hproc]
  refine ⟨by rw [hkey], by rw [hkey], ?_⟩
  simp [loopRun, hkey]

theorem c9_max_tasks_stop_witness :
    (may_pool_task 1 1
        (runTrace 1 1 [PollStep.poll ⟨true, true, some "t1"⟩,
          PollStep.finish "t1"] initPollState)
        ⟨true, true, none⟩).stopped = true ∧
    (may_pool_task 1 1
        (runTrace 1 1 [PollStep.poll ⟨true, true, some "t1"⟩,
          PollStep.finish "t1"] initPollState)
        ⟨true, true, none⟩).reschedule = none ∧
    loopRun 1 1
      (runTrace 1 1 [PollStep.poll ⟨true, true, some "t1"⟩,
        PollStep.finish "t1"] initPollState)
      (⟨true, true, none⟩ :: []) = [] :=
  c9_max_tasks_stop 1 1
    [PollStep.poll ⟨true, true, some "t1"⟩, PollStep.finish "t1"]
    ⟨true, true, none⟩ [] (by decide) rfl rfl (by decide) (by decide)

/-- C6 as amended: during a single tick, an unexpected exception raised
while evaluating one entry is caught by the handler wrapping the whole
iteration (tick returns normally with the error logged), but it ends the
iteration: the entries before the raising one are evaluated, the raising
one is reached, and the entries after it are not evaluated in that
tick. -/
theorem c6_tick_loop_abort (runJob : String → Except PyErr Unit)
    (pre post : List TickEntry) (e : TickEntry) (err : PyErr)
    (hpre : ∀ x ∈ pre, entryOk runJob x) (he : e.due = Except.error err) :
    (tickLoop runJob (pre ++ e :: post)).evaluated =
      pre.map TickEntry.name ++ [e.name] ∧
    (tickLoop runJob (pre ++ e :: post)).caught = true := by
  revert hpre
  induction pre with
  | nil =>
    intro _
    simp [tickLoop, he]
  | cons p pr ih =>
    intro hpre
    obtain ⟨d, ntr, hdue, hrun⟩ := hpre p (by simp)
    have ihh := ih fun x hx => hpre x (by simp [hx])
    cases d with
    | false =>
      simp [tickLoop, hdue, ihh.1, ihh.2]
    | true =>
      obtain ⟨u, hru⟩ := hrun rfl
      simp [tickLoop, hdue, hru, ihh.1, ihh.2]

theorem c6_tick_loop_abort_witness :
    (tickLoop (fun _ => Except.ok ())
        [⟨"p1", Except.ok (true, 5)⟩, ⟨"e1", Except.error PyErr.valueError⟩,
         ⟨"e2", Except.ok (false, 3)⟩]).evaluated = ["p1", "e1"] ∧
    (tickLoop (fun _ => Except.ok ())
        [⟨"p1", Except.ok (true, 5)⟩, ⟨"e1", Except.error PyErr.valueError⟩,
         ⟨"e2", Except.ok (false, 3)⟩]).caught = true := by
  have h := c6_tick_loop_abort (fun _ => Except.ok ())
    [⟨"p1", Except.ok (true, 5)⟩] [⟨"e2", Except.ok (false, 3)⟩]
    ⟨"e1", Except.error PyErr.valueError⟩ PyErr.valueError
    (by
      intro x hx
      simp only [List.mem_singleton] at hx
      subst hx
      exact ⟨true, 5, rfl, fun _ => ⟨(), rfl⟩⟩)
    rfl
  exact h

theorem lookupKV_perm {α : Type} (k : String) :
    ∀ {l1 l2 : List (String × α)}, l1.Perm l2 →
      (l1.map Prod.fst).Nodup → lookupKV k l1 = lookupKV k l2 := by
  intro l1 l2 h
  induction h with
  | nil => intro _; rfl
  | cons x h ih =>
    intro nd
    simp only [List.map_cons, List.nodup_cons] at nd
    simp only [lookupKV]
    by_cases hx : x.1 = k
    · simp [hx]
    · simp [hx, ih nd.2]
  | swap x y l =>
    intro nd
    simp only [List.map_cons, List.nodup_cons, List.mem_cons] at nd
    have hxy : y.1 ≠ x.1 := fun hh => nd.1 (Or.inl hh)
    simp only [lookupKV]
    by_cases h1 : y.1 = k <;> by_cases h2 : x.1 = k
    · exact absurd (h1.trans h2.symm) hxy
    · simp [h1, h2]
    · simp [h1, h2]
    · simp [h1, h2]
  | trans h1 h2 ih1 ih2 =>
    intro nd
    have nd2 := ((h1.map Prod.fst).nodup_iff).mp nd
    exact (ih1 nd).trans (ih2 nd2)

theorem sortedKeys_perm {kw1 kw2 : List (String × String)} (h : kw1.Perm kw2) :
    sortedKeys kw1 = sortedKeys kw2 := by
  have c : (List.insertionSort (fun a b => a.data ≤ b.data)
        (kw1.map Prod.fst)).Perm
      (List.insertionSort (fun a b => a.data ≤ b.data) (kw2.map Prod.fst)) :=
    ((List.perm_insertionSort _ _).trans (h.map Prod.fst)).trans
      (List.perm_insertionSort _ _).symm
  exact List.eq_of_perm_of_sorted c (List.sorted_insertionSort _ _)
    (List.sorted_insertionSort _ _)

theorem lockName_perm (n : String) {kw1 kw2 : List (String × String)}
    (h : kw1.Perm kw2) (nd : (kw1.map Prod.fst).Nodup) :
    lockName n kw1 = lockName n kw2 := by
  by_cases h1 : kw1 = []
  · subst h1
    have h2 : kw2 = [] := h.symm.eq_nil
    subst h2
    rfl
  · have h2 : kw2 ≠ [] := by
      intro hh
      subst hh
      exact h1 h.eq_nil
    unfold lockName
    rw [if_neg h1, if_neg h2, sortedKeys_perm h]
    have hl : ∀ j, lookupKV j kw1 = lookupKV j kw2 := fun j =>
      lookupKV_perm j h nd
    simp only [hl]

theorem maybe_queue_task_hit (st : Store) (r : TaskRecord) (lid : String)
    (hr : lookupKV "lock_id" r = some (Val.str lid)) (hne : lid ≠ "")
    (hhit : (lookupKV lid st.locks).isSome = true) :
    (maybe_queue_task st r).1 = none := by
  obtain ⟨v, hv⟩ := Option.isSome_iff_exists.mp hhit
  simp [maybe_queue_task, hr, hne, hsetnx, hv]

theorem maybe_queue_task_free (st : Store) (r : TaskRecord) (lid : String)
    (hr : lookupKV "lock_id" r = some (Val.str lid)) (hne : lid ≠ "")
    (hmiss : lookupKV lid st.locks = none) :
    (maybe_queue_task st r).1 = some r ∧
    (maybe_queue_task st r).2.locks = st.locks ++ [(lid, taskIdOf r)] := by
  simp [maybe_queue_task, hr, hne, hsetnx, hmiss, pushTask]

theorem queue_task_eq (H : String → String) (n : String) (o : Overlap)
    (jobTimeout : Option ℚ) (jobName : String)
    (kwargs : List (String × String)) (tid : String) (q : ℚ)
    (ee : Option ℚ) (st : Store) (hov : resolveOverlap o kwargs = false) :
    queue_task H n o jobTimeout jobName kwargs tid q ee st =
      maybe_queue_task st (queuedRecord tid (some (H (lockName n kwargs)))
        jobName q (computeExpiry q ee jobTimeout) (Val.blob kwargs)) := by
  simp [queue_task, generate_task_ids, hov]

/-- C2 as amended: for a job whose can_overlap resolves to false,
generate_task_ids returns the same lock key for any two keyword-argument
dictionaries that are equal as sets of key/value pairs, in any key order
(the key is the digest of the backend name plus key=value pairs sorted
by key); two queue requests with identical argument sets before the
first completes yield exactly one queued task; and two requests yield
two tasks when their serialized key=value strings differ (and the
digest, injective here, keeps them distinct) — not for every pair of
differing argument sets, since distinct argument sets can serialize to
the same string. -/
theorem c2_dedup (H : String → String) (hinj : Function.Injective H)
    (n jobName : String) (o : Overlap) (jobTimeout : Option ℚ)
    (kw1 kw2 : List (String × String)) (tid1 tid2 : String) (q1 q2 : ℚ)
    (st0 : Store)
    (hov1 : resolveOverlap o kw1 = false)
    (hov2 : resolveOverlap o kw2 = false)
    (nd1 : (kw1.map Prod.fst).Nodup) (hlocks : st0.locks = [])
    (hne1 : H (lockName n kw1) ≠ "") (hne2 : H (lockName n kw2) ≠ "") :
    (kw1.Perm kw2 →
      (generate_task_ids H n o kw1 tid1).2 =
        (generate_task_ids H n o kw2 tid2).2) ∧
    (queue_task H n o jobTimeout jobName kw1 tid1 q1 none st0).1.isSome =
      true ∧
    (kw1.Perm kw2 →
      (queue_task H n o jobTimeout jobName kw2 tid2 q2 none
        (queue_task H n o jobTimeout jobName kw1 tid1 q1 none st0).2).1 =
      none) ∧
    (lockName n kw1 ≠ lockName n kw2 →
      (queue_task H n o jobTimeout jobName kw2 tid2 q2 none
        (queue_task H n o jobTimeout jobName kw1 tid1 q1 none
          st0).2).1.isSome = true) := by
  have hr1 : lookupKV "lock_id"
      (queuedRecord tid1 (some (H (lockName n kw1))) jobName q1
        (computeExpiry q1 none jobTimeout) (Val.blob kw1)) =
      some (Val.str (H (lockName n kw1))) := rfl
  have hr2 : lookupKV "lock_id"
      (queuedRecord tid2 (some (H (lockName n kw2))) jobName q2
        (computeExpiry q2 none jobTimeout) (Val.blob kw2)) =
      some (Val.str (H (lockName n kw2))) := rfl
  have hmiss1 : lookupKV (H (lockName n kw1)) st0.locks = none := by
    rw [hlocks]
    rfl
  have hq1 := queue_task_eq H n o jobTimeout jobName kw1 tid1 q1 none st0 hov1
  have hq2 := queue_task_eq H n o jobTimeout jobName kw2 tid2 q2 none
    (queue_task H n o jobTimeout jobName kw1 tid1 q1 none st0).2 hov2
  have hfree1 := maybe_queue_task_free st0 _ (H (lockName n kw1)) hr1 hne1
    hmiss1
  have hlocks1 :
      (queue_task H n o jobTimeout jobName kw1 tid1 q1 none st0).2.locks =
        st0.locks ++ [(H (lockName n kw1),
          taskIdOf (queuedRecord tid1 (some (H (lockName n kw1))) jobName q1
            (computeExpiry q1 none jobTimeout) (Val.blob kw1)))] := by
    rw [hq1]
    exact hfree1.2
  refine ⟨?_, ?_, ?_, ?_⟩
  · intro hp
    simp [generate_task_ids, hov1, hov2, lockName_perm n hp nd1]
  · rw [hq1, hfree1.1]
    rfl
  · intro hp
    rw [hq2]
    have hLeq : lockName n kw2 = lockName n kw1 :=
      (lockName_perm n hp nd1).symm
    have hhit : (lookupKV (H (lockName n kw2))
        ((queue_task H n o jobTimeout jobName kw1 tid1 q1 none
          st0).2.locks)).isSome = true := by
      rw [hlocks1, hLeq, hlocks]
      simp [lookupKV]
    exact maybe_queue_task_hit _ _ (H (lockName n kw2)) hr2 hne2 hhit
  · intro hdiff
    rw [hq2]
    have hKne : H (lockName n kw1) ≠ H (lockName n kw2) := fun hh =>
      hdiff (hinj hh)
    have hmiss2 : lookupKV (H (lockName n kw2))
        ((queue_task H n o jobTimeout jobName kw1 tid1 q1 none
          st0).2.locks) = none := by
      rw [hlocks1, hlocks]
      simp [lookupKV, hKne]
    rw [(maybe_queue_task_free _ _ (H (lockName n kw2)) hr2 hne2 hmiss2).1]
    rfl

theorem c2_dedup_witness :
    (queue_task (fun s => s) "mail" (Overlap.flag false) none "send_email"
        [("to", "a@b.com")] "id1" 0 none ⟨[], [], []⟩).1.isSome = true ∧
    (queue_task (fun s => s) "mail" (Overlap.flag false) none "send_email"
        [("to", "a@b.com")] "id2" 0 none
        (queue_task (fun s => s) "mail" (Overlap.flag false) none
          "send_email" [("to", "a@b.com")] "id1" 0 none
          ⟨[], [], []⟩).2).1 = none := by
  have h := c2_dedup (fun s => s) (fun a b hh => hh) "mail" "send_email"
    (Overlap.flag false) none [("to", "a@b.com")] [("to", "a@b.com")]
    "id1" "id2" 0 0 ⟨[], [], []⟩ rfl rfl (by decide) rfl (by decide)
    (by decide)
  exact ⟨h.2.1, h.2.2.1 (List.Perm.refl _)⟩

/-- C2 counterexample: the two keyword-argument dictionaries differ as
sets of key/value pairs, yet they serialize to the same lock-name string
(a value containing a comma, a space and an equals sign collides with a
second key), so the two queue requests yield exactly one queued task,
not two. -/
theorem c2_dedup_counterexample :
    (("b", "2") ∈ ([("a", "1"), ("b", "2")] : List (String × String)) ∧
      ("b", "2") ∉ ([("a", "1, b=2")] : List (String × String))) ∧
    lockName "mail" [("a", "1, b=2")] =
      lockName "mail" [("a", "1"), ("b", "2")] ∧
    (queue_task (fun s => s) "mail" (Overlap.flag false) none "j"
        [("a", "1, b=2")] "id1" 0 none ⟨[], [], []⟩).1.isSome = true ∧
    (queue_task (fun s => s) "mail" (Overlap.flag false) none "j"
        [("a", "1"), ("b", "2")] "id2" 0 none
        (queue_task (fun s => s) "mail" (Overlap.flag false) none "j"
          [("a", "1, b=2")] "id1" 0 none ⟨[], [], []⟩).2).1 = none := by
  decide

end Pulsar
